import Mathlib

/-
Shallow embedding of src/notifications_server.py (the Subscription
Coordinator of the mongo-rabbit repository).

The MongoDB collection is modelled as an association list of documents
keyed by userid.  A document may or may not carry a "subscriptions"
field: `none` models a document without the field (which the code can
create via the upsert on the $pull path), `some l` models the field
holding the array `l`.

The RabbitMQ broker is modelled by the set of declared queues, the set
of (queue, routing_key) bindings on the single exchange
RABBITMQ_EXCHANGE_NAME, and the list of published messages.

Failure injection: `brokerFault = some m` means the broker call raised
an exception whose text is `m` (the broker state is unchanged, the
common unreachable-broker failure); `commitFault = some m` means the
commit performed by the exit of the `async with session.start_transaction()`
context raised an exception with text `m` (the transaction is then not
applied).  Note the explicit `session.commit_transaction()` /
`session.abort_transaction()` calls in the source are coroutines that
are never awaited; the commit on normal exit and the abort on exception
are performed by the motor context manager.
-/

namespace MongoRabbit

/-- A document field `subscriptions`: `none` when the field is absent. -/
abbrev Subs := Option (List String)

/-- The subscriptions collection: documents keyed by userid. -/
abbrev Registry := List (String × Subs)

/-- Point read of the first document matching the userid, as
`collection.find ({userid: u})` returns it. -/
def lookupDoc (reg : Registry) (u : String) : Option Subs :=
  (reg.find? (fun p => p.1 == u)).map Prod.snd

/-- The topic set of a user, reading an absent document or an absent
field as the empty set. -/
def topicsOf (reg : Registry) (u : String) : List String :=
  match lookupDoc reg u with
  | some (some l) => l
  | _ => []

/-- Whether a document for the user exists at all. -/
def docExists (reg : Registry) (u : String) : Prop :=
  (lookupDoc reg u).isSome

instance (reg : Registry) (u : String) : Decidable (docExists reg u) := by
  unfold docExists; infer_instance

/-- Effect of the update operator `\x7b$addToSet: \x7bsubscriptions: t\x7d\x7d` on one
document, with the resulting modified count contribution. -/
def applyAddToSet (field : Subs) (t : String) : Subs × Nat :=
  match field with
  | none => (some [t], 1)
  | some l => if t ∈ l then (some l, 0) else (some (l ++ [t]), 1)

/-- Effect of the update operator `\x7b$pull: \x7bsubscriptions: t\x7d\x7d` on one
document: removes every occurrence; a missing field stays missing. -/
def applyPull (field : Subs) (t : String) : Subs × Nat :=
  match field with
  | none => (none, 0)
  | some l => (some (l.filter (fun x => x != t)), if t ∈ l then 1 else 0)

/-- `collection.update_one` with `upsert=True`: update the first matching
document, or append a fresh document built from the query plus the
update operator.  Returns the new collection and the modified count
(0 for an upsert insert, as MongoDB reports). -/
def updateOneUpsert (reg : Registry) (u : String)
    (f : Subs → Subs × Nat) (onInsert : Subs) : Registry × Nat :=
  match reg with
  | [] => ([(u, onInsert)], 0)
  | (v, s) :: rest =>
    if v = u then
      ((v, (f s).1) :: rest, (f s).2)
    else
      let r := updateOneUpsert rest u f onInsert
      ((v, s) :: r.1, r.2)

/-- The `$addToSet` upsert of the subscribe path (lines 112-117). -/
def addToSetUpsert (reg : Registry) (u t : String) : Registry × Nat :=
  updateOneUpsert reg u (fun s => applyAddToSet s t) (some [t])

/-- The `$pull` upsert of the unsubscribe path (lines 127-132): the
upsert insert carries no subscriptions field since `$pull` creates none. -/
def pullUpsert (reg : Registry) (u t : String) : Registry × Nat :=
  updateOneUpsert reg u (fun s => applyPull s t) none

/-- A message published to the exchange. -/
structure Message where
  routing_key : String
  body : String
  persistent : Bool
deriving DecidableEq, Repr

/-- Broker-side state: declared queues, (queue, routing_key) bindings on
the single shared exchange, published messages. -/
structure Broker where
  queues : List String
  bindings : List (String × String)
  messages : List Message
deriving DecidableEq, Repr

/-- `channel.declare_queue (name, passive=False, durable=True)`:
idempotent creation. -/
def declare_queue (b : Broker) (q : String) : Broker :=
  if q ∈ b.queues then b else { b with queues := b.queues ++ [q] }

/-- `queue.bind (exchange, routing_key)`: set-like, binding twice is
binding once. -/
def queueBind (b : Broker) (q k : String) : Broker :=
  if (q, k) ∈ b.bindings then b else { b with bindings := b.bindings ++ [(q, k)] }

/-- `queue.unbind (exchange, routing_key)`: removes the binding. -/
def queueUnbind (b : Broker) (q k : String) : Broker :=
  { b with bindings := b.bindings.filter (fun p => p != (q, k)) }

/-- `create_rabbitmq_binding` (lines 155-162): declare the queue, then
bind the routing key. -/
def create_rabbitmq_binding (b : Broker) (queue_name routing_key : String) : Broker :=
  queueBind (declare_queue b queue_name) queue_name routing_key

/-- `delete_rabbitmq_binding` (lines 164-171): it also declares the
queue (passive=False) before unbinding. -/
def delete_rabbitmq_binding (b : Broker) (queue_name routing_key : String) : Broker :=
  queueUnbind (declare_queue b queue_name) queue_name routing_key

/-- Joint durable state of the registry and the broker. -/
structure SystemState where
  registry : Registry
  broker : Broker
deriving DecidableEq, Repr

def RABBITMQ_BROADCAST_KEY : String := "global-broadcast"

/-- Outcome of `subscription_transaction` as seen by its caller: a
returned message string, a raised `HTTPException (500, detail)`, or a
raw exception (text) propagating out of the transaction context. -/
inductive TxOutcome where
  | ok (msg : String)
  | raisedHttp (status : Nat) (detail : String)
  | raisedExc (msg : String)
deriving DecidableEq, Repr

structure TxResult where
  outcome : TxOutcome
  state : SystemState
deriving DecidableEq, Repr

def addedMsg (topic userid : String) : String :=
  "Added subscription to topic: " ++ topic ++ " for user: " ++ userid

def deletedMsg (topic userid : String) : String :=
  "Deleted subscription to topic: " ++ topic ++ " for user: " ++ userid

def noUpdatesMsg : String := "No updates made."

/-- `subscription_transaction (userid, topic, add)` (lines 98-153).
The registry mutation runs inside the Mongo transaction; the broker
call runs while that transaction is open; the `return` statements exit
the transaction context, which commits.  A broker exception triggers
the except clause (abort via the context manager, then
`raise HTTPException (500, str e)`); a commit exception occurs outside
the inner try and propagates raw, with the transaction not applied. -/
def subscription_transaction (st : SystemState) (userid topic : String)
    (add : Bool) (brokerFault commitFault : Option String) : TxResult :=
  let queue_name := "queue_" ++ userid
  let routing_key := topic
  if add then
    let r := addToSetUpsert st.registry userid topic
    match brokerFault with
    | some m => ⟨.raisedHttp 500 m, st⟩
    | none =>
      let broker' := create_rabbitmq_binding st.broker queue_name routing_key
      match commitFault with
      | some m => ⟨.raisedExc m, ⟨st.registry, broker'⟩⟩
      | none =>
        if r.2 > 0 then
          ⟨.ok (addedMsg topic userid), ⟨r.1, broker'⟩⟩
        else
          ⟨.ok noUpdatesMsg, ⟨r.1, broker'⟩⟩
  else
    let r := pullUpsert st.registry userid topic
    match brokerFault with
    | some m => ⟨.raisedHttp 500 m, st⟩
    | none =>
      let broker' := delete_rabbitmq_binding st.broker queue_name routing_key
      match commitFault with
      | some m => ⟨.raisedExc m, ⟨st.registry, broker'⟩⟩
      | none =>
        if r.2 > 0 then
          ⟨.ok (deletedMsg topic userid), ⟨r.1, broker'⟩⟩
        else
          ⟨.ok noUpdatesMsg, ⟨r.1, broker'⟩⟩

/-- HTTP-level response the caller of a route sees. -/
inductive HttpResponse where
  | ok (body : String)
  | error (status : Nat) (detail : String)
deriving DecidableEq, Repr

/-- `str` of a starlette `HTTPException (status, detail)` is
`"\x7bstatus\x7d: \x7bdetail\x7d"`; `str` of a plain exception is its message. -/
def strOfOutcome : TxOutcome → String
  | .ok m => m
  | .raisedHttp s d => toString s ++ ": " ++ d
  | .raisedExc m => m

/-- The route handlers (lines 176-190) wrap every exception from the
transaction in `HTTPException (500, str e)` and wrap a returned message
in a JSON body. -/
def route_wrap (r : TxResult) : HttpResponse × SystemState :=
  match r.outcome with
  | .ok m => (.ok m, r.state)
  | o => (.error 500 (strOfOutcome o), r.state)

/-- POST /notifications/subscription/\x7btopic\x7d (lines 176-182). -/
def add_subscription (st : SystemState) (topic userid : String)
    (brokerFault commitFault : Option String) : HttpResponse × SystemState :=
  route_wrap (subscription_transaction st userid topic true brokerFault commitFault)

/-- DELETE /notifications/subscription/\x7btopic\x7d (lines 184-190). -/
def delete_subscription (st : SystemState) (topic userid : String)
    (brokerFault commitFault : Option String) : HttpResponse × SystemState :=
  route_wrap (subscription_transaction st userid topic false brokerFault commitFault)

/-- Response of GET /notifications/subscription: `nullBody` when the
async-for loop finds no document (the handler returns None), the stored
array when the document has the field, and an HTTP 500 when
`document["subscriptions"]` raises KeyError on a field-less document. -/
inductive GetSubsResponse where
  | nullBody
  | subsBody (l : List String)
  | error (status : Nat) (detail : String)
deriving DecidableEq, Repr

/-- GET /notifications/subscription (lines 192-201). -/
def get_subscriptions (reg : Registry) (userid : String) : GetSubsResponse :=
  match lookupDoc reg userid with
  | none => .nullBody
  | some none => .error 500 "KeyError: subscriptions"
  | some (some l) => .subsBody l

/-- POST /notifications/message/\x7btopic\x7d (lines 205-215): publishes the
JSON-encoded body as a persistent message with routing key `topic`. -/
def publish_message (st : SystemState) (topic body : String) :
    HttpResponse × SystemState :=
  (.ok ("Publishing message with routing key: " ++ topic),
   { st with broker :=
      { st.broker with messages :=
          st.broker.messages ++ [⟨topic, body, true⟩] } })

/-- POST /notifications/message/broadcast/ (lines 217-228): same publish
with the fixed broadcast routing key. -/
def broadcast_message (st : SystemState) (body : String) :
    HttpResponse × SystemState :=
  (.ok "Broadcasted message.",
   { st with broker :=
      { st.broker with messages :=
          st.broker.messages ++ [⟨RABBITMQ_BROADCAST_KEY, body, true⟩] } })

/-- One completed coordinator operation, with its injected faults. -/
inductive Op where
  | sub (u t : String) (brokerFault commitFault : Option String)
  | unsub (u t : String) (brokerFault commitFault : Option String)
deriving DecidableEq, Repr

def Op.commitFault : Op → Option String
  | .sub _ _ _ cf => cf
  | .unsub _ _ _ cf => cf

def applyOp (st : SystemState) : Op → TxResult
  | .sub u t bf cf => subscription_transaction st u t true bf cf
  | .unsub u t bf cf => subscription_transaction st u t false bf cf

/-- Durable state after a sequence of completed operations resolves. -/
def runOps (st : SystemState) (ops : List Op) : SystemState :=
  ops.foldl (fun s op => (applyOp s op).state) st

/-- The broker holds a binding routing topic t to the queue of user u. -/
def hasBinding (st : SystemState) (u t : String) : Prop :=
  ("queue_" ++ u, t) ∈ st.broker.bindings

instance (st : SystemState) (u t : String) : Decidable (hasBinding st u t) := by
  unfold hasBinding; infer_instance

/-- Central invariant: a topic is in a user registry set iff the broker
binds it to that user queue. -/
def inSync (st : SystemState) : Prop :=
  ∀ u t, t ∈ topicsOf st.registry u ↔ hasBinding st u t

def emptyState : SystemState := ⟨[], ⟨[], [], []⟩⟩

/-! Helper lemmas about the registry operations. -/

theorem queue_name_inj {u v : String} (h : "queue_" ++ u = "queue_" ++ v) : u = v := by
  have h2 : ("queue_" ++ u).data = ("queue_" ++ v).data := by rw [h]
  simp [String.data_append] at h2
  exact String.ext h2

theorem lookupDoc_updateOneUpsert_self (reg : Registry) (u : String)
    (f : Subs → Subs × Nat) (oi : Subs) :
    lookupDoc (updateOneUpsert reg u f oi).1 u =
      some (match lookupDoc reg u with
            | some s => (f s).1
            | none => oi) := by
  induction reg with
  | nil => simp [lookupDoc, updateOneUpsert]
  | cons hd tl ih =>
    by_cases h : hd.1 = u
    · simp [lookupDoc, updateOneUpsert, h]
    · simp only [updateOneUpsert]
      rw [if_neg h]
      simp only [lookupDoc, List.find?] at ih ⊢
      have hb : (hd.1 == u) = false := by simp [h]
      simp [hb, ih]

theorem lookupDoc_updateOneUpsert_other (reg : Registry) (u u' : String)
    (h : u' ≠ u) (f : Subs → Subs × Nat) (oi : Subs) :
    lookupDoc (updateOneUpsert reg u f oi).1 u' = lookupDoc reg u' := by
  have hb : (u == u') = false := by simp [Ne.symm h]
  induction reg with
  | nil => simp [lookupDoc, updateOneUpsert, List.find?, hb]
  | cons hd tl ih =>
    by_cases hh : hd.1 = u
    · have hb2 : (hd.1 == u') = false := by rw [hh]; exact hb
      simp [lookupDoc, updateOneUpsert, hh, List.find?, hb, hb2]
    · simp only [updateOneUpsert]
      rw [if_neg hh]
      simp only [lookupDoc, List.find?] at ih ⊢
      cases hbe : (hd.1 == u') with
      | true => simp
      | false => simpa [hbe] using ih

theorem snd_updateOneUpsert (reg : Registry) (u : String)
    (f : Subs → Subs × Nat) (oi : Subs) :
    (updateOneUpsert reg u f oi).2 =
      match lookupDoc reg u with
      | some s => (f s).2
      | none => 0 := by
  induction reg with
  | nil => simp [lookupDoc, updateOneUpsert]
  | cons hd tl ih =>
    by_cases h : hd.1 = u
    · simp [lookupDoc, updateOneUpsert, h]
    · simp only [updateOneUpsert]
      rw [if_neg h]
      simp only [lookupDoc, List.find?] at ih ⊢
      have hb : (hd.1 == u) = false := by simp [h]
      simp [hb, ih]

theorem topicsOf_addToSetUpsert_self (reg : Registry) (u t : String) :
    topicsOf (addToSetUpsert reg u t).1 u =
      if t ∈ topicsOf reg u then topicsOf reg u else topicsOf reg u ++ [t] := by
  unfold topicsOf addToSetUpsert
  rw [lookupDoc_updateOneUpsert_self]
  cases h : lookupDoc reg u with
  | none => simp
  | some s =>
    cases s with
    | none => simp [applyAddToSet]
    | some l =>
      simp only [applyAddToSet]
      by_cases ht : t ∈ l <;> simp [ht]

theorem topicsOf_addToSetUpsert_other (reg : Registry) (u u' t : String)
    (h : u' ≠ u) :
    topicsOf (addToSetUpsert reg u t).1 u' = topicsOf reg u' := by
  unfold topicsOf addToSetUpsert
  rw [lookupDoc_updateOneUpsert_other _ _ _ h]

theorem topicsOf_pullUpsert_self (reg : Registry) (u t : String) :
    topicsOf (pullUpsert reg u t).1 u =
      (topicsOf reg u).filter (fun x => x != t) := by
  unfold topicsOf pullUpsert
  rw [lookupDoc_updateOneUpsert_self]
  cases h : lookupDoc reg u with
  | none => simp
  | some s =>
    cases s with
    | none => simp [applyPull]
    | some l => simp [applyPull]

theorem topicsOf_pullUpsert_other (reg : Registry) (u u' t : String)
    (h : u' ≠ u) :
    topicsOf (pullUpsert reg u t).1 u' = topicsOf reg u' := by
  unfold topicsOf pullUpsert
  rw [lookupDoc_updateOneUpsert_other _ _ _ h]

theorem snd_addToSetUpsert (reg : Registry) (u t : String) :
    (addToSetUpsert reg u t).2 =
      if docExists reg u ∧ t ∉ topicsOf reg u then 1 else 0 := by
  unfold addToSetUpsert
  rw [snd_updateOneUpsert]
  cases h : lookupDoc reg u with
  | none => simp [docExists, topicsOf, h]
  | some s =>
    cases s with
    | none => simp [docExists, topicsOf, h, applyAddToSet]
    | some l =>
      by_cases ht : t ∈ l <;>
        simp [docExists, topicsOf, h, applyAddToSet, ht]

theorem snd_pullUpsert (reg : Registry) (u t : String) :
    (pullUpsert reg u t).2 = if t ∈ topicsOf reg u then 1 else 0 := by
  unfold pullUpsert
  rw [snd_updateOneUpsert]
  cases h : lookupDoc reg u with
  | none => simp [topicsOf, h]
  | some s =>
    cases s with
    | none => simp [topicsOf, h, applyPull]
    | some l => simp [topicsOf, h, applyPull]

theorem lookupDoc_pullUpsert_absent (reg : Registry) (u t : String)
    (h : lookupDoc reg u = none) :
    lookupDoc (pullUpsert reg u t).1 u = some none := by
  unfold pullUpsert
  rw [lookupDoc_updateOneUpsert_self, h]

/-! Helper lemmas about the broker operations. -/

theorem queues_declare_mem (b : Broker) (q q' : String) :
    q' ∈ (declare_queue b q).queues ↔ q' ∈ b.queues ∨ q' = q := by
  unfold declare_queue
  by_cases h : q ∈ b.queues
  · simp only [if_pos h]
    constructor
    · exact Or.inl
    · rintro (hm | rfl) <;> [exact hm; exact h]
  · simp [if_neg h, or_comm]

theorem bindings_declare (b : Broker) (q : String) :
    (declare_queue b q).bindings = b.bindings := by
  unfold declare_queue
  by_cases h : q ∈ b.queues <;> simp [h]

theorem messages_declare (b : Broker) (q : String) :
    (declare_queue b q).messages = b.messages := by
  unfold declare_queue
  by_cases h : q ∈ b.queues <;> simp [h]

theorem mem_bindings_queueBind (b : Broker) (q k q' k' : String) :
    (q', k') ∈ (queueBind b q k).bindings ↔
      (q', k') ∈ b.bindings ∨ (q', k') = (q, k) := by
  unfold queueBind
  by_cases h : (q, k) ∈ b.bindings
  · simp only [if_pos h]
    constructor
    · intro hm; exact Or.inl hm
    · rintro (hm | he)
      · exact hm
      · rw [he]; exact h
  · simp [if_neg h, or_comm]

theorem mem_bindings_create (b : Broker) (q k q' k' : String) :
    (q', k') ∈ (create_rabbitmq_binding b q k).bindings ↔
      (q', k') ∈ b.bindings ∨ (q', k') = (q, k) := by
  unfold create_rabbitmq_binding
  rw [mem_bindings_queueBind, bindings_declare]

theorem mem_bindings_delete (b : Broker) (q k q' k' : String) :
    (q', k') ∈ (delete_rabbitmq_binding b q k).bindings ↔
      (q', k') ∈ b.bindings ∧ (q', k') ≠ (q, k) := by
  unfold delete_rabbitmq_binding queueUnbind
  rw [bindings_declare]
  simp [List.mem_filter]

theorem queues_create_mem (b : Broker) (q k q' : String) :
    q' ∈ (create_rabbitmq_binding b q k).queues ↔ q' ∈ b.queues ∨ q' = q := by
  unfold create_rabbitmq_binding queueBind
  by_cases h : (q, k) ∈ (declare_queue b q).bindings <;>
    simp [h, queues_declare_mem]

theorem queues_delete_mem (b : Broker) (q k q' : String) :
    q' ∈ (delete_rabbitmq_binding b q k).queues ↔ q' ∈ b.queues ∨ q' = q := by
  unfold delete_rabbitmq_binding queueUnbind
  simp [queues_declare_mem]

/-! Step lemmas for subscription_transaction. -/

theorem tx_brokerFault (st : SystemState) (u t : String) (add : Bool)
    (m : String) (cf : Option String) :
    subscription_transaction st u t add (some m) cf = ⟨.raisedHttp 500 m, st⟩ := by
  unfold subscription_transaction
  cases add <;> rfl

theorem tx_add_commitFault (st : SystemState) (u t m : String) :
    subscription_transaction st u t true none (some m) =
      ⟨.raisedExc m,
       ⟨st.registry, create_rabbitmq_binding st.broker ("queue_" ++ u) t⟩⟩ := rfl

theorem tx_unsub_commitFault (st : SystemState) (u t m : String) :
    subscription_transaction st u t false none (some m) =
      ⟨.raisedExc m,
       ⟨st.registry, delete_rabbitmq_binding st.broker ("queue_" ++ u) t⟩⟩ := rfl

theorem tx_add_ok_state (st : SystemState) (u t : String) :
    (subscription_transaction st u t true none none).state =
      ⟨(addToSetUpsert st.registry u t).1,
       create_rabbitmq_binding st.broker ("queue_" ++ u) t⟩ := by
  unfold subscription_transaction
  by_cases h : (addToSetUpsert st.registry u t).2 > 0 <;> simp [h]

theorem tx_unsub_ok_state (st : SystemState) (u t : String) :
    (subscription_transaction st u t false none none).state =
      ⟨(pullUpsert st.registry u t).1,
       delete_rabbitmq_binding st.broker ("queue_" ++ u) t⟩ := by
  unfold subscription_transaction
  by_cases h : (pullUpsert st.registry u t).2 > 0 <;> simp [h]

theorem tx_add_ok_outcome (st : SystemState) (u t : String) :
    (subscription_transaction st u t true none none).outcome =
      if docExists st.registry u ∧ t ∉ topicsOf st.registry u then
        .ok (addedMsg t u)
      else .ok noUpdatesMsg := by
  simp only [subscription_transaction]
  rw [snd_addToSetUpsert]
  by_cases h : docExists st.registry u ∧ t ∉ topicsOf st.registry u <;> simp [h]

theorem tx_unsub_ok_outcome (st : SystemState) (u t : String) :
    (subscription_transaction st u t false none none).outcome =
      if t ∈ topicsOf st.registry u then .ok (deletedMsg t u)
      else .ok noUpdatesMsg := by
  simp only [subscription_transaction]
  rw [snd_pullUpsert]
  by_cases h : t ∈ topicsOf st.registry u <;> simp [h]

/-! Preservation of the registry-broker synchronisation invariant by
fault-free and broker-fault operations (every case except a failed
commit). -/

theorem pair_ne_of_user_ne {u u' t t' : String} (hu : u' ≠ u) :
    ("queue_" ++ u', t') ≠ ("queue_" ++ u, t) := by
  intro he
  exact hu (queue_name_inj (congrArg Prod.fst he))

theorem inSync_tx (st : SystemState) (u t : String) (add : Bool)
    (bf : Option String) (hsync : inSync st) :
    inSync (subscription_transaction st u t add bf none).state := by
  cases bf with
  | some m => rw [tx_brokerFault]; exact hsync
  | none =>
    cases add with
    | false =>
      rw [tx_unsub_ok_state]
      intro u' t'
      unfold hasBinding
      simp only
      by_cases hu : u' = u
      · subst hu
        rw [topicsOf_pullUpsert_self, mem_bindings_delete]
        by_cases ht : t' = t
        · subst ht
          simp [List.mem_filter]
        · simp only [List.mem_filter, bne_iff_ne, ne_eq, decide_eq_true_eq]
          have hp : ("queue_" ++ u', t') ≠ ("queue_" ++ u', t) := by
            intro he
            exact ht (congrArg Prod.snd he)
          simp [ht, hp]
          exact hsync u' t'
      · rw [topicsOf_pullUpsert_other _ _ _ _ hu, mem_bindings_delete]
        simp [pair_ne_of_user_ne hu]
        exact hsync u' t'
    | true =>
      rw [tx_add_ok_state]
      intro u' t'
      unfold hasBinding
      simp only
      by_cases hu : u' = u
      · subst hu
        rw [topicsOf_addToSetUpsert_self, mem_bindings_create]
        by_cases ht : t' = t
        · subst ht
          by_cases hm : t' ∈ topicsOf st.registry u' <;> simp [hm]
        · have hp : ("queue_" ++ u', t') ≠ ("queue_" ++ u', t) := by
            intro he
            exact ht (congrArg Prod.snd he)
          by_cases hm : t ∈ topicsOf st.registry u' <;>
            simp [hm, ht, hp, hsync u' t', hasBinding]
      · rw [topicsOf_addToSetUpsert_other _ _ _ _ hu, mem_bindings_create]
        simp [pair_ne_of_user_ne hu]
        exact hsync u' t'

theorem tx_add_ok_registry (st : SystemState) (u t : String) :
    (subscription_transaction st u t true none none).state.registry =
      (addToSetUpsert st.registry u t).1 := by
  rw [tx_add_ok_state]

theorem tx_add_ok_broker (st : SystemState) (u t : String) :
    (subscription_transaction st u t true none none).state.broker =
      create_rabbitmq_binding st.broker ("queue_" ++ u) t := by
  rw [tx_add_ok_state]

theorem tx_unsub_ok_registry (st : SystemState) (u t : String) :
    (subscription_transaction st u t false none none).state.registry =
      (pullUpsert st.registry u t).1 := by
  rw [tx_unsub_ok_state]

theorem tx_unsub_ok_broker (st : SystemState) (u t : String) :
    (subscription_transaction st u t false none none).state.broker =
      delete_rabbitmq_binding st.broker ("queue_" ++ u) t := by
  rw [tx_unsub_ok_state]

theorem docExists_addToSetUpsert_self (reg : Registry) (u t : String) :
    docExists (addToSetUpsert reg u t).1 u := by
  unfold docExists addToSetUpsert
  rw [lookupDoc_updateOneUpsert_self]
  rfl

theorem docExists_pullUpsert_self (reg : Registry) (u t : String) :
    docExists (pullUpsert reg u t).1 u := by
  unfold docExists pullUpsert
  rw [lookupDoc_updateOneUpsert_self]
  rfl

theorem bindings_create_eq (b : Broker) (q k : String) :
    (create_rabbitmq_binding b q k).bindings =
      if (q, k) ∈ b.bindings then b.bindings else b.bindings ++ [(q, k)] := by
  unfold create_rabbitmq_binding queueBind
  by_cases h : (q, k) ∈ b.bindings <;> simp [bindings_declare, h]

theorem bindings_delete_eq (b : Broker) (q k : String) :
    (delete_rabbitmq_binding b q k).bindings =
      b.bindings.filter (fun p => p != (q, k)) := by
  unfold delete_rabbitmq_binding queueUnbind
  rw [bindings_declare]

theorem route_wrap_state (r : TxResult) : (route_wrap r).2 = r.state := by
  unfold route_wrap
  cases r.outcome <;> rfl

theorem route_wrap_ok (r : TxResult) (m : String) (h : r.outcome = .ok m) :
    (route_wrap r).1 = .ok m := by
  unfold route_wrap
  rw [h]

theorem inSync_emptyState : inSync emptyState := by
  intro u t
  simp [topicsOf, lookupDoc, hasBinding, emptyState, List.find?]

/-! The ten claims. -/

/-- Claim C1 (corrected), counterexample: after a broker failure during
subscribe the caller does not receive a distinct `BrokerBindingFailed`
error: the HTTP response is the generic `500` and is byte-identical to
a response produced by a registry-commit failure, so no error kind
specific to broker-binding failures reaches the caller. -/
theorem C1_counterexample :
    (add_subscription emptyState "weather" "u1" (some "err") none).1 =
      .error 500 "500: err"
    ∧ (add_subscription emptyState "weather" "u1" (some "err") none).1 =
      (add_subscription emptyState "weather" "u1" none (some "500: err")).1 := by
  constructor <;> rfl

/-- Claim C1 (amended): if the broker binding call raises during
`subscribe (u, t)`, the registry transaction is aborted, so the whole
durable state is exactly the pre-operation state (in particular the
registry shows no record of `t` for `u` that it did not show before),
and the caller receives a generic HTTP 500 error carrying the exception
text — the code defines no distinct `BrokerBindingFailed` kind. -/
theorem C1_broker_failure_compensated_generic_error (st : SystemState)
    (u t m : String) (cf : Option String) :
    add_subscription st t u (some m) cf = (.error 500 ("500: " ++ m), st) := by
  unfold add_subscription
  rw [tx_brokerFault]
  rfl

/-- Claim C2 (corrected), counterexample: a registry-commit failure
after a successful broker call produces an HTTP response identical to
the response of a broker-call failure, so the caller cannot
distinguish a `PartialFailure` from a `BrokerBindingFailed`; the
failure is reported under the one generic 500 error. -/
theorem C2_counterexample :
    (delete_subscription ⟨[("u2", some ["news"])],
        ⟨["queue_u2"], [("queue_u2", "news")], []⟩⟩
      "news" "u2" none (some "500: down")).1 =
    (delete_subscription ⟨[("u2", some ["news"])],
        ⟨["queue_u2"], [("queue_u2", "news")], []⟩⟩
      "news" "u2" (some "down") none).1 := by
  rfl

/-- Claim C2 (amended): when the broker call succeeded but the registry
commit failed, subscribe and unsubscribe do surface an error (it is not
swallowed) and the broker-side change persists while the registry
reverts, but the error is the generic HTTP 500 carrying the raw
exception text, with no distinct `PartialFailure` kind. -/
theorem C2_commit_failure_surfaced_generic (st : SystemState) (u t m : String) :
    add_subscription st t u none (some m) =
      (.error 500 m,
       ⟨st.registry, create_rabbitmq_binding st.broker ("queue_" ++ u) t⟩)
    ∧ delete_subscription st t u none (some m) =
      (.error 500 m,
       ⟨st.registry, delete_rabbitmq_binding st.broker ("queue_" ++ u) t⟩) := by
  constructor
  · unfold add_subscription
    rw [tx_add_commitFault]
    rfl
  · unfold delete_subscription
    rw [tx_unsub_commitFault]
    rfl

/-- Claim C3 (corrected), counterexample: a subscribe whose registry
commit fails after the broker call succeeded leaves a durable state in
which the broker holds the binding but the registry does not list the
topic — the registry-broker biconditional is violated in the durable
state left after the operation resolved. -/
theorem C3_counterexample :
    ("queue_u1", "weather") ∈
      (subscription_transaction emptyState "u1" "weather" true none
        (some "boom")).state.broker.bindings
    ∧ "weather" ∉ topicsOf
        (subscription_transaction emptyState "u1" "weather" true none
          (some "boom")).state.registry "u1"
    ∧ ¬ inSync (subscription_transaction emptyState "u1" "weather" true none
          (some "boom")).state := by
  refine ⟨by decide, by decide, ?_⟩
  intro h
  exact absurd ((h "u1" "weather").mpr (by decide)) (by decide)

/-- Claim C3 (amended): the registry-broker synchronisation invariant is
preserved by every completed subscribe and unsubscribe operation whose
registry commit does not fail — including operations whose broker call
fails (compensated by abort) — but not by operations whose commit fails
after the broker change. -/
theorem C3_invariant_preserved_without_commit_failure (st : SystemState)
    (ops : List Op) (hcf : ∀ op ∈ ops, op.commitFault = none)
    (hsync : inSync st) : inSync (runOps st ops) := by
  induction ops generalizing st with
  | nil => exact hsync
  | cons op rest ih =>
    have hop : op.commitFault = none := hcf op (List.mem_cons_self op rest)
    have hrest : ∀ o ∈ rest, o.commitFault = none := by
      intro o ho
      exact hcf o (List.mem_cons_of_mem op ho)
    unfold runOps
    simp only [List.foldl_cons]
    have hstep : inSync (applyOp st op).state := by
      cases op with
      | sub u t bf cf =>
        simp only [Op.commitFault] at hop
        subst hop
        exact inSync_tx st u t true bf hsync
      | unsub u t bf cf =>
        simp only [Op.commitFault] at hop
        subst hop
        exact inSync_tx st u t false bf hsync
    exact ih ((applyOp st op).state) hrest hstep

/-- Witness for Claim C3: the invariant holds after a concrete fault-free
subscribe followed by an unsubscribe, starting from the empty state. -/
theorem C3_witness :
    inSync (runOps emptyState
      [Op.sub "u1" "weather" none none, Op.unsub "u1" "weather" none none]) :=
  C3_invariant_preserved_without_commit_failure emptyState
    [Op.sub "u1" "weather" none none, Op.unsub "u1" "weather" none none]
    (by decide) inSync_emptyState

/-- Claim C4 (corrected), counterexample: for a brand-new user the first
subscribe performs the upsert insert, for which MongoDB reports a
modified count of 0, so the call returns the no-op message instead of
the Added message. -/
theorem C4_counterexample :
    (subscription_transaction emptyState "u1" "weather" true none none).outcome
      = .ok noUpdatesMsg
    ∧ (subscription_transaction emptyState "u1" "weather" true none none).outcome
      ≠ .ok (addedMsg "weather" "u1") :=
  ⟨rfl, by decide⟩

/-- Claim C4 (amended): for a user who already has a registry document
and is not yet subscribed to the topic, with no prior binding, calling
subscribe twice in sequence yields the Added message then the no-op
message, raises no error, and leaves exactly one occurrence of the
topic in the registry set and exactly one binding of that routing key
on that user queue.  (For a brand-new user the first call performs the
mutation but is misreported as a no-op, see the counterexample.) -/
theorem C4_subscribe_twice (st : SystemState) (u t : String)
    (hdoc : docExists st.registry u) (ht : t ∉ topicsOf st.registry u)
    (hb : ("queue_" ++ u, t) ∉ st.broker.bindings) :
    (subscription_transaction st u t true none none).outcome = .ok (addedMsg t u)
    ∧ (subscription_transaction
        (subscription_transaction st u t true none none).state
        u t true none none).outcome = .ok noUpdatesMsg
    ∧ (topicsOf (subscription_transaction
        (subscription_transaction st u t true none none).state
        u t true none none).state.registry u).count t = 1
    ∧ ((subscription_transaction
        (subscription_transaction st u t true none none).state
        u t true none none).state.broker.bindings).count ("queue_" ++ u, t)
        = 1 := by
  have h1o := tx_add_ok_outcome st u t
  rw [if_pos ⟨hdoc, ht⟩] at h1o
  have htop1 : topicsOf (subscription_transaction st u t true none none).state.registry u
      = topicsOf st.registry u ++ [t] := by
    rw [tx_add_ok_registry, topicsOf_addToSetUpsert_self, if_neg ht]
  have hmem1 : t ∈ topicsOf (subscription_transaction st u t true none none).state.registry u := by
    rw [htop1]
    exact List.mem_append_right _ (List.mem_singleton_self t)
  have h2o := tx_add_ok_outcome (subscription_transaction st u t true none none).state u t
  rw [if_neg (by intro hc; exact hc.2 hmem1)] at h2o
  have hbind1 : (subscription_transaction st u t true none none).state.broker.bindings
      = st.broker.bindings ++ [("queue_" ++ u, t)] := by
    rw [tx_add_ok_broker, bindings_create_eq, if_neg hb]
  refine ⟨h1o, h2o, ?_, ?_⟩
  · rw [tx_add_ok_registry, topicsOf_addToSetUpsert_self, if_pos hmem1, htop1,
      List.count_append]
    simp [List.count_eq_zero.mpr ht]
  · rw [tx_add_ok_broker, bindings_create_eq, hbind1,
      if_pos (List.mem_append_right _ (List.mem_singleton_self _)),
      List.count_append]
    simp [List.count_eq_zero.mpr hb]

/-- Witness for Claim C4: concrete run for a user whose document already
exists with an empty subscription array. -/
theorem C4_witness :
    docExists ([("u1", some [])] : Registry) "u1"
    ∧ "weather" ∉ topicsOf ([("u1", some [])] : Registry) "u1"
    ∧ (subscription_transaction ⟨[("u1", some [])], ⟨[], [], []⟩⟩
        "u1" "weather" true none none).outcome = .ok (addedMsg "weather" "u1") :=
  ⟨by decide, by decide,
   (C4_subscribe_twice ⟨[("u1", some [])], ⟨[], [], []⟩⟩ "u1" "weather"
      (by decide) (by decide) (by decide)).1⟩

/-- Claim C5 (corrected), counterexample: a subscribe with an empty
user id is not rejected: it succeeds (with the no-op message, since the
upsert inserts a fresh document) and performs registry and broker I/O,
creating a document keyed by the empty string and the queue `queue_`. -/
theorem C5_counterexample :
    (add_subscription emptyState "weather" "" none none).1 = .ok noUpdatesMsg
    ∧ topicsOf (add_subscription emptyState "weather" "" none none).2.registry ""
      = ["weather"]
    ∧ "queue_" ∈ (add_subscription emptyState "weather" "" none none).2.broker.queues :=
  ⟨rfl, rfl, by decide⟩

/-- Claim C5 (amended): neither route validates its arguments: there is
no `InvalidArgument` error kind, and a request with an empty user id
proceeds into the registry upsert and the broker binding call, mutating
both, and returns success. -/
theorem C5_no_validation (st : SystemState) (t : String) :
    (∃ m, (add_subscription st t "" none none).1 = .ok m)
    ∧ t ∈ topicsOf (add_subscription st t "" none none).2.registry ""
    ∧ ("queue_", t) ∈ (add_subscription st t "" none none).2.broker.bindings := by
  unfold add_subscription
  refine ⟨?_, ?_, ?_⟩
  · have ho := tx_add_ok_outcome st "" t
    by_cases hc : docExists st.registry "" ∧ t ∉ topicsOf st.registry ""
    · exact ⟨addedMsg t "", route_wrap_ok _ _ (by rw [ho, if_pos hc])⟩
    · exact ⟨noUpdatesMsg, route_wrap_ok _ _ (by rw [ho, if_neg hc])⟩
  · rw [route_wrap_state, tx_add_ok_registry, topicsOf_addToSetUpsert_self]
    by_cases hm : t ∈ topicsOf st.registry "" <;> simp [hm]
  · rw [route_wrap_state, tx_add_ok_broker]
    exact (mem_bindings_create _ _ _ _ _).mpr (Or.inr rfl)

/-- Claim C6 (code bug): a first subscribe for a brand-new user is a
real mutation — it creates the document and stores the topic — yet the
code reports the no-op message, because the upsert insert leaves
`modified_count` at 0; the intent visible in the code (report additions
with the Added message) and the spec agree that a real mutation must be
distinguishable from a no-op. -/
theorem C6_first_subscribe_reported_as_noop :
    (subscription_transaction emptyState "u2" "news" true none none).outcome
      = .ok noUpdatesMsg
    ∧ topicsOf (subscription_transaction emptyState "u2" "news" true none
        none).state.registry "u2" = ["news"]
    ∧ docExists (subscription_transaction emptyState "u2" "news" true none
        none).state.registry "u2" :=
  ⟨rfl, rfl, by decide⟩

/-- Claim C7 (corrected), counterexample: unsubscribing a user who was
never subscribed returns the no-op message without error, but it does
create state: the `$pull` upsert inserts a registry document (without a
subscriptions field) and `delete_rabbitmq_binding` declares the queue. -/
theorem C7_counterexample :
    (delete_subscription emptyState "sports" "u1" none none).1 = .ok noUpdatesMsg
    ∧ lookupDoc (delete_subscription emptyState "sports" "u1" none
        none).2.registry "u1" = some none
    ∧ "queue_u1" ∈ (delete_subscription emptyState "sports" "u1" none
        none).2.broker.queues :=
  ⟨rfl, rfl, by decide⟩

/-- Claim C7 (amended): unsubscribing a topic the user is not subscribed
to returns the no-op message without error, changes no topic set of any
user and removes no binding; but it upserts a (field-less) registry
document for the user and declares (creates) the user queue when
absent. -/
theorem C7_unsubscribe_absent_topic (st : SystemState) (u t : String)
    (ht : t ∉ topicsOf st.registry u)
    (hb : ("queue_" ++ u, t) ∉ st.broker.bindings) :
    (delete_subscription st t u none none).1 = .ok noUpdatesMsg
    ∧ (∀ u', topicsOf (delete_subscription st t u none none).2.registry u'
        = topicsOf st.registry u')
    ∧ (delete_subscription st t u none none).2.broker.bindings
        = st.broker.bindings
    ∧ docExists (delete_subscription st t u none none).2.registry u
    ∧ "queue_" ++ u ∈ (delete_subscription st t u none none).2.broker.queues := by
  unfold delete_subscription
  refine ⟨?_, ?_, ?_, ?_, ?_⟩
  · exact route_wrap_ok _ _ (by rw [tx_unsub_ok_outcome, if_neg ht])
  · intro u'
    rw [route_wrap_state, tx_unsub_ok_registry]
    by_cases hu : u' = u
    · subst hu
      rw [topicsOf_pullUpsert_self]
      apply List.filter_eq_self.mpr
      intro a ha
      simp only [bne_iff_ne, ne_eq, decide_eq_true_eq]
      intro he
      subst he
      exact ht ha
    · exact topicsOf_pullUpsert_other _ _ _ _ hu
  · rw [route_wrap_state, tx_unsub_ok_broker, bindings_delete_eq]
    apply List.filter_eq_self.mpr
    intro p hp
    simp only [bne_iff_ne, ne_eq, decide_eq_true_eq]
    intro he
    subst he
    exact hb hp
  · rw [route_wrap_state, tx_unsub_ok_registry]
    exact docExists_pullUpsert_self _ _ _
  · rw [route_wrap_state, tx_unsub_ok_broker]
    exact (queues_delete_mem _ _ _ _).mpr (Or.inr rfl)

/-- Witness for Claim C7: concrete unsubscribe of a never-subscribed
topic. -/
theorem C7_witness :
    "alpha" ∉ topicsOf emptyState.registry "u3"
    ∧ ("queue_u3", "alpha") ∉ emptyState.broker.bindings
    ∧ (delete_subscription emptyState "alpha" "u3" none none).1
        = .ok noUpdatesMsg :=
  ⟨by decide, by decide,
   (C7_unsubscribe_absent_topic emptyState "u3" "alpha"
      (by decide) (by decide)).1⟩

/-- Claim C8 (confirmed): starting from any state in which the user is
subscribed to nothing, subscribe followed by unsubscribe leaves the
user topic set empty and no binding of that topic to the user queue. -/
theorem C8_subscribe_then_unsubscribe (st : SystemState) (u t : String)
    (h : topicsOf st.registry u = []) :
    topicsOf (subscription_transaction
        (subscription_transaction st u t true none none).state
        u t false none none).state.registry u = []
    ∧ ¬ hasBinding (subscription_transaction
        (subscription_transaction st u t true none none).state
        u t false none none).state u t := by
  have htop1 : topicsOf (subscription_transaction st u t true none
      none).state.registry u = [t] := by
    rw [tx_add_ok_registry, topicsOf_addToSetUpsert_self, h]
    simp
  constructor
  · rw [tx_unsub_ok_registry, topicsOf_pullUpsert_self, htop1]
    simp
  · unfold hasBinding
    rw [tx_unsub_ok_broker, bindings_delete_eq]
    simp [List.mem_filter]

/-- Witness for Claim C8: concrete subscribe-then-unsubscribe round
trip from the empty state. -/
theorem C8_witness :
    topicsOf emptyState.registry "u1" = []
    ∧ topicsOf (subscription_transaction
        (subscription_transaction emptyState "u1" "weather" true none
          none).state "u1" "weather" false none none).state.registry "u1"
        = [] :=
  ⟨rfl, (C8_subscribe_then_unsubscribe emptyState "u1" "weather" rfl).1⟩

/-- Claim C9 (confirmed): publish forwards the payload to the exchange
as a persistent message whose routing key is exactly the topic,
broadcast uses the one fixed broadcast key, and neither operation reads
or writes the registry (the registry component is returned unchanged
and the broker effect does not depend on the registry contents). -/
theorem C9_publish_broadcast_forwarding (st : SystemState) (topic body : String) :
    publish_message st topic body =
      (.ok ("Publishing message with routing key: " ++ topic),
       ⟨st.registry,
        ⟨st.broker.queues, st.broker.bindings,
         st.broker.messages ++ [⟨topic, body, true⟩]⟩⟩)
    ∧ broadcast_message st body =
      (.ok "Broadcasted message.",
       ⟨st.registry,
        ⟨st.broker.queues, st.broker.bindings,
         st.broker.messages ++ [⟨RABBITMQ_BROADCAST_KEY, body, true⟩]⟩⟩)
    ∧ (∀ reg : Registry,
        (publish_message ⟨reg, st.broker⟩ topic body).2.broker =
          (publish_message st topic body).2.broker
        ∧ (broadcast_message ⟨reg, st.broker⟩ body).2.broker =
          (broadcast_message st body).2.broker) :=
  ⟨rfl, rfl, fun _ => ⟨rfl, rfl⟩⟩

/-- Claim C10 (corrected), counterexample: a user whose document was
created by the unsubscribe upsert has a document but no subscriptions
field, so the query handler raises KeyError and answers HTTP 500
instead of returning a stored array. -/
theorem C10_counterexample :
    docExists (delete_subscription emptyState "beta" "u9" none
      none).2.registry "u9"
    ∧ get_subscriptions (delete_subscription emptyState "beta" "u9" none
        none).2.registry "u9" = .error 500 "KeyError: subscriptions" :=
  ⟨by decide, rfl⟩

/-- Claim C10 (amended): with no document the handler returns a null
body (not an empty array) ; with a document holding a subscriptions
field it returns exactly that stored array, which is also the topic
set the coordinator maintains ; with a field-less document (creatable
via the unsubscribe upsert) it returns an HTTP 500 from the KeyError. -/
theorem C10_get_subscriptions_cases (reg : Registry) (u : String) :
    (¬ docExists reg u → get_subscriptions reg u = .nullBody)
    ∧ (∀ l, lookupDoc reg u = some (some l) →
        get_subscriptions reg u = .subsBody l ∧ topicsOf reg u = l)
    ∧ (lookupDoc reg u = some none →
        get_subscriptions reg u = .error 500 "KeyError: subscriptions") := by
  refine ⟨?_, ?_, ?_⟩
  · intro h
    unfold get_subscriptions
    cases hl : lookupDoc reg u with
    | none => rfl
    | some s =>
      exact absurd (show docExists reg u by unfold docExists; rw [hl]; rfl) h
  · intro l hl
    unfold get_subscriptions topicsOf
    rw [hl]
    exact ⟨rfl, rfl⟩
  · intro hl
    unfold get_subscriptions
    rw [hl]

/-- Witness for Claim C10: the three handler behaviours at concrete
registries. -/
theorem C10_witness :
    get_subscriptions [] "u" = .nullBody
    ∧ get_subscriptions [("a", some ["x"])] "a" = .subsBody ["x"]
    ∧ get_subscriptions [("b", none)] "b" = .error 500 "KeyError: subscriptions" :=
  ⟨(C10_get_subscriptions_cases [] "u").1 (by decide),
   ((C10_get_subscriptions_cases [("a", some ["x"])] "a").2.1 ["x"] (by decide)).1,
   (C10_get_subscriptions_cases [("b", none)] "b").2.2 (by decide)⟩

end MongoRabbit
